import Mathlib

/-!
Verification development for the Decision Transformer training and evaluation
code (files src/decision_transformer/train.py, src/environments.py and
src/streamlit_app/environment.py of the repository).

Rewards and losses are 64-bit floats in the code; the embedding models them as
rationals, which is exact on every value the theorems below evaluate.  The
neural forward pass, the torch argmax and the per-position cross-entropy are
opaque collaborators in the code and are passed as function parameters here.
-/

namespace DTI

/-- Result of one env.step call as consumed by evaluate_dt_agent: the scalar
reward together with the two terminal flags. -/
structure StepResult where
  reward : ℚ
  terminated : Bool
  truncated : Bool
deriving Repr, DecidableEq

/-- Data recorded when one evaluation episode of evaluate_dt_agent ends:
the RTG tensor accumulated in the rollout state, the loop counter i appended
to traj_lengths, the number of env.step calls the episode made, the last
reward, and the two terminal flags of the final step. -/
structure EpisodeOutcome where
  rtgs : List ℚ
  trajLen : ℕ
  stepCalls : ℕ
  finalReward : ℚ
  terminated : Bool
  truncated : Bool
deriving Repr, DecidableEq

/-- The while-loop of evaluate_dt_agent (train.py lines 267-302), driven by the
stream of env.step results still to come.  On entry, `last` is the result of
the most recent env.step call, `rtgs` the RTG tensor so far, `i` the loop
counter, `calls` the number of env.step calls made so far.  Each iteration
appends `rtg[-1][-1] - new_reward` to the RTG tensor, performs the next
env.step (consuming the head of the stream) and increments the counter.
Returns none when the supplied stream is exhausted before the environment
signals terminated or truncated (the real loop would keep stepping). -/
def episodeLoop : List ℚ → ℕ → ℕ → StepResult → List StepResult → Option EpisodeOutcome
  | rtgs, i, calls, last, [] =>
      if last.terminated || last.truncated then
        some ⟨rtgs, i, calls, last.reward, last.terminated, last.truncated⟩
      else
        none
  | rtgs, i, calls, last, s :: rest =>
      if last.terminated || last.truncated then
        some ⟨rtgs, i, calls, last.reward, last.terminated, last.truncated⟩
      else
        episodeLoop (rtgs ++ [rtgs.getLastD 0 - last.reward]) (i + 1) (calls + 1) s rest

/-- One full evaluation episode of evaluate_dt_agent (train.py lines 244-310):
reset initialises the rollout state with the single RTG value initial_rtg,
the first forward/env.step happens before the loop, the counter i starts at 0,
then the while-loop runs.  The argument list is the sequence of env.step
results the environment yields. -/
def runEpisode (initial_rtg : ℚ) : List StepResult → Option EpisodeOutcome
  | [] => none
  | s :: rest => episodeLoop [initial_rtg] 0 1 s rest

/-- Claim C1: in an evaluation episode whose environment yields rewards
r0, r1, r2 on three non-terminal steps and then ends (terminated, or
truncated, on the next step), the RTG values held in the rollout state are
exactly [R, R - r0, R - r0 - r1, R - r0 - r1 - r2], each new value being the
previous RTG minus the reward just received. -/
theorem C1_rtg_sequence (R r0 r1 r2 r3 : ℚ) :
    (runEpisode R [⟨r0, false, false⟩, ⟨r1, false, false⟩, ⟨r2, false, false⟩,
        ⟨r3, true, false⟩]).map EpisodeOutcome.rtgs
      = some [R, R - r0, R - r0 - r1, R - r0 - r1 - r2] ∧
    (runEpisode R [⟨r0, false, false⟩, ⟨r1, false, false⟩, ⟨r2, false, false⟩,
        ⟨r3, false, true⟩]).map EpisodeOutcome.rtgs
      = some [R, R - r0, R - r0 - r1, R - r0 - r1 - r2] := by
  constructor <;> simp [runEpisode, episodeLoop]

/-- Accumulator for the per-episode statistics of evaluate_dt_agent
(train.py lines 224-229 initialise it, lines 304-310 update it). -/
structure EvalAccum where
  traj_lengths : List ℕ
  rewards : List ℚ
  n_terminated : ℕ
  n_truncated : ℕ
  reward_total : ℚ
  n_positive : ℕ
deriving Repr, DecidableEq

/-- The per-episode statistics update of evaluate_dt_agent (train.py lines
304-310): append i and the last reward, add the terminal flags as 0/1, add
the last reward to the running total, count positive last rewards. -/
def stepAccum (acc : EvalAccum) (o : EpisodeOutcome) : EvalAccum :=
  { traj_lengths := acc.traj_lengths ++ [o.trajLen]
    rewards := acc.rewards ++ [o.finalReward]
    n_terminated := acc.n_terminated + (if o.terminated then 1 else 0)
    n_truncated := acc.n_truncated + (if o.truncated then 1 else 0)
    reward_total := acc.reward_total + o.finalReward
    n_positive := acc.n_positive + (if 0 < o.finalReward then 1 else 0) }

/-- The statistics dictionary built by evaluate_dt_agent (train.py lines
327-336). -/
structure EvalStatistics where
  initial_rtg : ℚ
  prop_completed : ℚ
  prop_truncated : ℚ
  mean_reward : ℚ
  prop_positive_reward : ℚ
  mean_traj_length : ℚ
  traj_lengths : List ℕ
  rewards : List ℚ
deriving Repr, DecidableEq

/-- Aggregation of evaluate_dt_agent over its finished episodes: the counters
are accumulated episode by episode and the rates divide by the number of
episodes (`trajectories`, the length of the episode list). -/
def evaluateStats (initial_rtg : ℚ) (outs : List EpisodeOutcome) : EvalStatistics :=
  let acc := outs.foldl stepAccum ⟨[], [], 0, 0, 0, 0⟩
  let n : ℚ := (outs.length : ℚ)
  { initial_rtg := initial_rtg
    prop_completed := (acc.n_terminated : ℚ) / n
    prop_truncated := (acc.n_truncated : ℚ) / n
    mean_reward := acc.reward_total / n
    prop_positive_reward := (acc.n_positive : ℚ) / n
    mean_traj_length := ((acc.traj_lengths.sum : ℕ) : ℚ) / n
    traj_lengths := acc.traj_lengths
    rewards := acc.rewards }

/-- Closed form of the statistics fold: counters become counts, sums and maps
over the episode list. -/
theorem foldl_stepAccum (outs : List EpisodeOutcome) (a : EvalAccum) :
    outs.foldl stepAccum a =
      ⟨a.traj_lengths ++ outs.map EpisodeOutcome.trajLen,
       a.rewards ++ outs.map EpisodeOutcome.finalReward,
       a.n_terminated + outs.countP (fun o => o.terminated),
       a.n_truncated + outs.countP (fun o => o.truncated),
       a.reward_total + (outs.map EpisodeOutcome.finalReward).sum,
       a.n_positive + outs.countP (fun o => decide (0 < o.finalReward))⟩ := by
  induction outs generalizing a with
  | nil => simp
  | cons o rest ih =>
      simp only [List.foldl_cons, ih, List.map_cons, List.countP_cons, List.sum_cons]
      cases a
      simp only [stepAccum, EvalAccum.mk.injEq]
      refine ⟨by simp, by simp, ?_, ?_, by ring, ?_⟩
      · cases h : o.terminated
        · simp [h]
        · simp [h]; omega
      · cases h : o.truncated
        · simp [h]
        · simp [h]; omega
      · by_cases h : 0 < o.finalReward
        · simp [h]; omega
        · simp [h]

/-- Each field of the statistics record in closed form. -/
theorem evaluateStats_spec (R : ℚ) (outs : List EpisodeOutcome) :
    evaluateStats R outs =
      { initial_rtg := R
        prop_completed := ((outs.countP (fun o => o.terminated) : ℕ) : ℚ) / (outs.length : ℚ)
        prop_truncated := ((outs.countP (fun o => o.truncated) : ℕ) : ℚ) / (outs.length : ℚ)
        mean_reward := (outs.map EpisodeOutcome.finalReward).sum / (outs.length : ℚ)
        prop_positive_reward :=
          ((outs.countP (fun o => decide (0 < o.finalReward)) : ℕ) : ℚ) / (outs.length : ℚ)
        mean_traj_length :=
          (((outs.map EpisodeOutcome.trajLen).sum : ℕ) : ℚ) / (outs.length : ℚ)
        traj_lengths := outs.map EpisodeOutcome.trajLen
        rewards := outs.map EpisodeOutcome.finalReward } := by
  simp [evaluateStats, foldl_stepAccum]

/-- Claim C4: the returned statistics are the counts of terminated and of
truncated episodes divided by the episode count, arithmetic means of the
recorded rewards and trajectory lengths, together with the raw per-episode
lists; when every episode terminates and none truncates, prop_completed is 1
and prop_truncated is 0. -/
theorem C4_statistics (R : ℚ) (outs : List EpisodeOutcome) (hne : outs ≠ []) :
    (evaluateStats R outs).prop_completed
        = ((outs.countP (fun o => o.terminated) : ℕ) : ℚ) / (outs.length : ℚ) ∧
    (evaluateStats R outs).prop_truncated
        = ((outs.countP (fun o => o.truncated) : ℕ) : ℚ) / (outs.length : ℚ) ∧
    (evaluateStats R outs).mean_reward
        = (outs.map EpisodeOutcome.finalReward).sum / (outs.length : ℚ) ∧
    (evaluateStats R outs).mean_traj_length
        = (((outs.map EpisodeOutcome.trajLen).sum : ℕ) : ℚ) / (outs.length : ℚ) ∧
    (evaluateStats R outs).traj_lengths = outs.map EpisodeOutcome.trajLen ∧
    (evaluateStats R outs).rewards = outs.map EpisodeOutcome.finalReward ∧
    ((∀ o ∈ outs, o.terminated = true ∧ o.truncated = false) →
      (evaluateStats R outs).prop_completed = 1 ∧
      (evaluateStats R outs).prop_truncated = 0) := by
  rw [evaluateStats_spec]
  refine ⟨rfl, rfl, rfl, rfl, rfl, rfl, fun hall => ?_⟩
  have hterm : outs.countP (fun o => o.terminated) = outs.length :=
    List.countP_eq_length.mpr (fun o ho => by simp [(hall o ho).1])
  have htrunc : outs.countP (fun o => o.truncated) = 0 :=
    List.countP_eq_zero.mpr (fun o ho => by simp [(hall o ho).2])
  have hlen : (outs.length : ℚ) ≠ 0 := by
    have h0 : outs.length ≠ 0 := by simpa using hne
    exact_mod_cast h0
  constructor
  · simp only [hterm]
    exact div_self hlen
  · simp [htrunc]

/-- Concrete instantiation of C4_statistics: two episodes, both terminated. -/
theorem C4_statistics_witness :
    ([⟨[2, 1], 3, 4, 1, true, false⟩, ⟨[5], 1, 2, 0, true, false⟩]
        : List EpisodeOutcome) ≠ [] ∧
    (evaluateStats 2 [⟨[2, 1], 3, 4, 1, true, false⟩, ⟨[5], 1, 2, 0, true, false⟩]).prop_completed = 1 ∧
    (evaluateStats 2 [⟨[2, 1], 3, 4, 1, true, false⟩, ⟨[5], 1, 2, 0, true, false⟩]).prop_truncated = 0 := by
  refine ⟨by simp, ?_⟩
  have h := C4_statistics 2
      [⟨[2, 1], 3, 4, 1, true, false⟩, ⟨[5], 1, 2, 0, true, false⟩] (by simp)
  exact h.2.2.2.2.2.2 (by decide)

/-- Invariant of the evaluation while-loop: the number of env.step calls made
by a finished episode exceeds the recorded loop counter by the surplus the
loop was entered with. -/
theorem episodeLoop_stepCalls (rest : List StepResult) :
    ∀ (rtgs : List ℚ) (i k : ℕ) (last : StepResult) (out : EpisodeOutcome),
      episodeLoop rtgs i (i + k) last rest = some out →
        out.stepCalls = out.trajLen + k := by
  induction rest with
  | nil =>
      intro rtgs i k last out h
      by_cases hd : (last.terminated || last.truncated) = true
      · simp only [episodeLoop, hd, if_true, Option.some.injEq] at h
        subst h
        rfl
      · simp [episodeLoop, hd] at h
  | cons s rest ih =>
      intro rtgs i k last out h
      by_cases hd : (last.terminated || last.truncated) = true
      · simp only [episodeLoop, hd, if_true, Option.some.injEq] at h
        subst h
        rfl
      · simp only [episodeLoop, hd, if_false, Bool.false_eq_true] at h
        exact ih _ (i + 1) k s out (by rw [show i + 1 + k = i + k + 1 by omega]; exact h)

/-- Claim C10: the trajectory length recorded for a finished evaluation
episode is the number of env.step calls of that episode minus one (the
counter i starts at 0 after the first step and is incremented only on later
loop iterations); an episode that ends on its very first action is recorded
with trajectory length 0; and mean_traj_length is the arithmetic mean of
these counts. -/
theorem C10_traj_length (R : ℚ) (steps : List StepResult) (out : EpisodeOutcome)
    (h : runEpisode R steps = some out) :
    out.stepCalls = out.trajLen + 1 ∧
    (∀ (r : ℚ) (b : Bool),
        (runEpisode R [⟨r, true, b⟩]).map EpisodeOutcome.trajLen = some 0 ∧
        (runEpisode R [⟨r, b, true⟩]).map EpisodeOutcome.trajLen = some 0) ∧
    (∀ outs : List EpisodeOutcome,
        (evaluateStats R outs).mean_traj_length
          = (((outs.map EpisodeOutcome.trajLen).sum : ℕ) : ℚ) / (outs.length : ℚ)) := by
  refine ⟨?_, ?_, ?_⟩
  · cases steps with
    | nil => simp [runEpisode] at h
    | cons s rest => exact episodeLoop_stepCalls rest [R] 0 1 s out (by simpa using h)
  · intro r b
    constructor <;> simp [runEpisode, episodeLoop]
  · intro outs
    rw [evaluateStats_spec]

/-- Concrete instantiation of C10_traj_length: a two-step episode makes two
env.step calls and records trajectory length 1. -/
theorem C10_traj_length_witness :
    runEpisode 1 [⟨0, false, false⟩, ⟨1, true, false⟩]
        = some ⟨[1, 1], 1, 2, 1, true, false⟩ ∧
    (⟨[1, 1], 1, 2, 1, true, false⟩ : EpisodeOutcome).stepCalls
        = (⟨[1, 1], 1, 2, 1, true, false⟩ : EpisodeOutcome).trajLen + 1 := by
  have h : runEpisode 1 [⟨0, false, false⟩, ⟨1, true, false⟩]
      = some ⟨[1, 1], 1, 2, 1, true, false⟩ := by
    simp [runEpisode, episodeLoop]
  exact ⟨h, (C10_traj_length 1 _ _ h).1⟩

/-- The value returned for the loss by the test function (train.py line 193):
literally loss.item() / epochs * test_batches_per_epoch, which by the
precedence of the source language is (sum of per-batch losses / epochs)
multiplied by test_batches_per_epoch.  batch_losses collects the per-batch
cross-entropy values accumulated into the loss variable over all epochs. -/
def test_mean_loss (batch_losses : List ℚ) (epochs test_batches_per_epoch : ℕ) : ℚ :=
  batch_losses.sum / (epochs : ℚ) * (test_batches_per_epoch : ℚ)

/-- Claim C3 evaluated at the failing input: with 1 epoch of 2 batches whose
per-batch losses are both 1, the code returns 4 while the arithmetic mean of
the per-batch losses (what the claim and the variable name mean_loss promise)
is 1.  The two agree only when test_batches_per_epoch equals 1. -/
theorem C3_mean_loss_bug :
    test_mean_loss [1, 1] 1 2 = 4 ∧
    ([1, 1] : List ℚ).sum / ((1 * 2 : ℕ) : ℚ) = 1 ∧
    test_mean_loss [1, 1] 1 2 ≠ ([1, 1] : List ℚ).sum / ((1 * 2 : ℕ) : ℚ) := by
  refine ⟨?_, ?_, ?_⟩ <;> norm_num [test_mean_loss]

/-- The replacement a[a == -10] = env.action_space.n performed by both train
(train.py line 71) and test (train.py line 167): the store-side padding
marker -10 is replaced by the sentinel action index num_actions before the
forward pass and the loss. -/
def replaceDummyActions (num_actions : ℤ) (a : List ℤ) : List ℤ :=
  a.map fun x => if x = -10 then num_actions else x

/-- The masked cross-entropy of the train step (train.py lines 82-89):
loss_fn(action_preds[a_exp != n], a_exp[a_exp != n]) with loss_fn an
nn.CrossEntropyLoss of mean reduction.  ce is the opaque per-position
cross-entropy of one logit row against a target, action_preds the flattened
per-position logit rows of the batch, a the flattened stored actions. -/
def trainLoss (ce : List ℚ → ℤ → ℚ) (num_actions : ℤ)
    (action_preds : List (List ℚ)) (a : List ℤ) : ℚ :=
  let a_exp := replaceDummyActions num_actions a
  let kept := (action_preds.zip a_exp).filter fun p => p.2 != num_actions
  (kept.map fun p => ce p.1 p.2).sum / (kept.length : ℚ)

/-- The accuracy counting of the test function (train.py lines 176-190):
a_hat is the opaque torch argmax of a logit row, the positions with
a_exp != n are kept, and the accuracy is n_correct / n_actions over the kept
positions. -/
def testAccuracy (argmax : List ℚ → ℤ) (num_actions : ℤ)
    (action_preds : List (List ℚ)) (a : List ℤ) : ℚ :=
  let a_exp := replaceDummyActions num_actions a
  let kept := (action_preds.zip a_exp).filter fun p => p.2 != num_actions
  ((kept.countP fun p => argmax p.1 == p.2 : ℕ) : ℚ) / (kept.length : ℚ)

/-- Written after the words of the spec, for comparison with trainLoss: the
cross-entropy mean over exactly the positions whose stored target action is
neither the -10 store marker nor the sentinel index, with the stored targets
left untouched, excluded from numerator and denominator alike. -/
def specTrainLoss (ce : List ℚ → ℤ → ℚ) (num_actions : ℤ)
    (action_preds : List (List ℚ)) (a : List ℤ) : ℚ :=
  let kept := (action_preds.zip a).filter fun p => p.2 != -10 && p.2 != num_actions
  (kept.map fun p => ce p.1 p.2).sum / (kept.length : ℚ)

/-- Written after the words of the spec, for comparison with testAccuracy:
argmax-equals-target counted over exactly the non-sentinel, non-marker
positions. -/
def specTestAccuracy (argmax : List ℚ → ℤ) (num_actions : ℤ)
    (action_preds : List (List ℚ)) (a : List ℤ) : ℚ :=
  let kept := (action_preds.zip a).filter fun p => p.2 != -10 && p.2 != num_actions
  ((kept.countP fun p => argmax p.1 == p.2 : ℕ) : ℚ) / (kept.length : ℚ)

/-- Marker replacement followed by the sentinel filter keeps exactly the
positions whose stored action is neither -10 nor the sentinel, and keeps
them unchanged. -/
theorem zip_replace_filter (num_actions : ℤ) (action_preds : List (List ℚ)) :
    ∀ a : List ℤ,
      ((action_preds.zip (replaceDummyActions num_actions a)).filter
          fun p => p.2 != num_actions)
        = (action_preds.zip a).filter fun p => p.2 != -10 && p.2 != num_actions := by
  induction action_preds with
  | nil => intro a; simp
  | cons p ps ih =>
      intro a
      cases a with
      | nil => simp [replaceDummyActions]
      | cons x xs =>
          simp only [replaceDummyActions, List.map_cons, List.zip_cons_cons,
            List.filter_cons]
          by_cases hx : x = -10
          · subst hx
            have htail := ih xs
            simp only [replaceDummyActions] at htail
            simp [htail]
          · by_cases hn : x = num_actions
            · subst hn
              have htail := ih xs
              simp only [replaceDummyActions] at htail
              simp [hx, htail]
            · have htail := ih xs
              simp only [replaceDummyActions] at htail
              simp [hx, hn, htail]

/-- Claim C2: after the -10 markers are replaced by the sentinel index, the
train loss is the cross-entropy mean over exactly the positions whose target
differs from the sentinel, and the test accuracy counts argmax-equals-target
over exactly those positions; both coincide with the spec-side definitions
stated on the untouched stored actions. -/
theorem C2_masked_loss_accuracy (ce : List ℚ → ℤ → ℚ) (argmax : List ℚ → ℤ)
    (num_actions : ℤ) (action_preds : List (List ℚ)) (a : List ℤ) :
    trainLoss ce num_actions action_preds a
        = specTrainLoss ce num_actions action_preds a ∧
    testAccuracy argmax num_actions action_preds a
        = specTestAccuracy argmax num_actions action_preds a := by
  simp only [trainLoss, specTrainLoss, testAccuracy, specTestAccuracy,
    zip_replace_filter]
  exact ⟨trivial, trivial⟩

/-- The observation-encoding sniffing of get_env_and_dt
(streamlit_app/environment.py lines 28-29): one_hot_encoded is true exactly
when the last dimension of the state-embedding tensor is divisible by 20. -/
def one_hot_encoded (state_embedding_dim : ℕ) : Bool :=
  state_embedding_dim % 20 == 0

/-- The agent view size computed by get_env_and_dt (lines 43-48):
int(math.sqrt(dim // 20)) in the one-hot branch and int(math.sqrt(dim // 3))
in the raw-pixel branch, with integer division and the floor square root. -/
def view_size (state_embedding_dim : ℕ) : ℕ :=
  if one_hot_encoded state_embedding_dim then Nat.sqrt (state_embedding_dim / 20)
  else Nat.sqrt (state_embedding_dim / 3)

/-- Hyperparameters and state-embedding dimension of one fixture checkpoint,
with the encoding the fixture is known to use. -/
structure FixtureCheckpoint where
  n_ctx : ℕ
  d_model : ℕ
  n_heads : ℕ
  n_layers : ℕ
  state_embedding_dim : ℕ
  is_one_hot : Bool
deriving Repr, DecidableEq

/-- Modelled from the spec: the fixture checkpoint files loaded by
tests/test_utils.py (lines 140-185) are binary artifacts that are not part of
the source tree.  The tests pin context length 3, embedding dimension 128,
2 heads and 1 layer for each of them; the spec pins the one-hot encoding
width at 20 values per cell and the raw-pixel width at 3 channels, so a
7 by 7 agent view gives a state-embedding dimension of 980 for a one-hot
fixture and 147 for a raw-pixel fixture. -/
def fixtureCheckpoints : List FixtureCheckpoint :=
  [⟨3, 128, 2, 1, 980, true⟩, ⟨3, 128, 2, 1, 147, false⟩]

/-- Claim C5: a state-embedding dimension divisible by 20 is classified
one-hot with view size the square root of dim / 20; a dimension divisible by
3 and not by 20 is classified raw-pixel with view size the square root of
dim / 3; and the classification matches the fixture checkpoints, whose
hyperparameters are context length 3, embedding 128, 2 heads, 1 layer. -/
theorem C5_checkpoint_classification :
    (∀ d : ℕ, d % 20 = 0 →
        one_hot_encoded d = true ∧ view_size d = Nat.sqrt (d / 20)) ∧
    (∀ d : ℕ, d % 3 = 0 → d % 20 ≠ 0 →
        one_hot_encoded d = false ∧ view_size d = Nat.sqrt (d / 3)) ∧
    (∀ c ∈ fixtureCheckpoints,
        one_hot_encoded c.state_embedding_dim = c.is_one_hot ∧
        view_size c.state_embedding_dim = 7 ∧
        c.n_ctx = 3 ∧ c.d_model = 128 ∧ c.n_heads = 2 ∧ c.n_layers = 1) := by
  refine ⟨fun d hd => ?_, fun d h3 h20 => ?_, ?_⟩
  · have h : one_hot_encoded d = true := by
      simp [one_hot_encoded, hd]
    exact ⟨h, by simp [view_size, h]⟩
  · have h : one_hot_encoded d = false := by
      simp [one_hot_encoded, h20]
    exact ⟨h, by simp [view_size, h]⟩
  · have h49 : Nat.sqrt 49 = 7 := by
      rw [show (49 : ℕ) = 7 * 7 from rfl]
      exact Nat.sqrt_eq 7
    intro c hc
    simp only [fixtureCheckpoints, List.mem_cons, List.not_mem_nil, or_false] at hc
    rcases hc with rfl | rfl <;>
      simp [one_hot_encoded, view_size, h49]

/-- Concrete instantiation of C5_checkpoint_classification at the fixture
dimensions 980 and 147. -/
theorem C5_checkpoint_classification_witness :
    (980 % 20 = 0 ∧ one_hot_encoded 980 = true ∧ view_size 980 = Nat.sqrt (980 / 20)) ∧
    (147 % 3 = 0 ∧ 147 % 20 ≠ 0 ∧ one_hot_encoded 147 = false ∧
      view_size 147 = Nat.sqrt (147 / 3)) := by
  have h := C5_checkpoint_classification
  refine ⟨⟨by decide, h.1 980 (by decide)⟩, ⟨by decide, by decide, h.2.1 147 (by decide) (by decide)⟩⟩

/-- The precondition of make_env (environments.py lines 49-51): the assert
that rejects fully_observed and flat_one_hot both set, evaluated when
make_env is called, before the environment thunk is even built. -/
def make_env_precheck (fully_observed flat_one_hot : Bool) : Except String Unit :=
  if fully_observed && flat_one_hot then
    .error "Cannot have both fully_observed and flat_one_hot."
  else
    .ok ()

/-- The precondition of evaluate_dt_agent (train.py lines 221-222): the
assert that n_ctx is divisible by 3, checked before any episode runs, and
the context window length max_len = n_ctx // 3 computed right after it. -/
def evaluate_dt_agent_precheck (n_ctx : ℕ) : Except String ℕ :=
  if n_ctx % 3 = 0 then .ok (n_ctx / 3)
  else .error "n_ctx must be divisible by 3"

/-- Claim C7: both observability flags set makes the environment factory fail
at once, and a context length not divisible by 3 makes the rollout evaluator
fail at once; under the negated conditions the two assertion branches are
unreachable and the checks succeed. -/
theorem C7_precondition_failures :
    (∀ fully_observed flat_one_hot : Bool,
        fully_observed = true → flat_one_hot = true →
          make_env_precheck fully_observed flat_one_hot
            = .error "Cannot have both fully_observed and flat_one_hot.") ∧
    (∀ fully_observed flat_one_hot : Bool,
        (fully_observed && flat_one_hot) = false →
          make_env_precheck fully_observed flat_one_hot = .ok ()) ∧
    (∀ n_ctx : ℕ, n_ctx % 3 ≠ 0 →
        evaluate_dt_agent_precheck n_ctx = .error "n_ctx must be divisible by 3") ∧
    (∀ n_ctx : ℕ, n_ctx % 3 = 0 →
        evaluate_dt_agent_precheck n_ctx = .ok (n_ctx / 3)) := by
  refine ⟨fun fo fh hfo hfh => ?_, fun fo fh hne => ?_, fun n hn => ?_, fun n hn => ?_⟩
  · simp [make_env_precheck, hfo, hfh]
  · simp [make_env_precheck, hne]
  · simp [evaluate_dt_agent_precheck, hn]
  · simp [evaluate_dt_agent_precheck, hn]

/-- Concrete instantiation of C7_precondition_failures: both flags set fails,
one flag set succeeds, n_ctx 4 fails, n_ctx 6 succeeds with window 2. -/
theorem C7_precondition_failures_witness :
    make_env_precheck true true
        = .error "Cannot have both fully_observed and flat_one_hot." ∧
    make_env_precheck false true = .ok () ∧
    evaluate_dt_agent_precheck 4 = .error "n_ctx must be divisible by 3" ∧
    evaluate_dt_agent_precheck 6 = .ok 2 := by
  have h := C7_precondition_failures
  exact ⟨h.1 true true rfl rfl, h.2.1 false true (by decide),
    h.2.2.1 4 (by decide), h.2.2.2 6 (by decide)⟩

/-- The substring test i in model_path of get_env_and_dt, on characters. -/
def containsSub (s pat : List Char) : Bool :=
  s.tails.any fun t => pat.isPrefixOf t

/-- The registered environment identifiers occurring in the path
(streamlit_app/environment.py line 33): the list comprehension keeping every
registered MiniGrid identifier that is a substring of model_path. -/
def find_env_ids (minigrid_envs : List (List Char)) (model_path : List Char) :
    List (List Char) :=
  minigrid_envs.filter fun i => containsSub model_path i

/-- Message of the ValueError raised when no identifier matches
(streamlit_app/environment.py lines 35-36). -/
def msg_no_env : List Char :=
  "Could not find the env id in the model path: ".data

/-- Message of the ValueError raised when several identifiers match
(streamlit_app/environment.py lines 38-39). -/
def msg_many_env : List Char :=
  "Found more than one env id in the model path: ".data

/-- The environment-id resolution of get_env_and_dt
(streamlit_app/environment.py lines 31-41): zero matches raise a ValueError
whose message ends with the path, several matches raise a ValueError whose
message ends with the path, exactly one match proceeds with that
identifier. -/
def get_env_id (minigrid_envs : List (List Char)) (model_path : List Char) :
    Except (List Char) (List Char) :=
  let env_ids := find_env_ids minigrid_envs model_path
  if env_ids.length = 0 then .error (msg_no_env ++ model_path)
  else if env_ids.length > 1 then .error (msg_many_env ++ model_path)
  else .ok (env_ids.headD [])

/-- A suffix appended after anything is found by the substring test. -/
theorem containsSub_append (a b : List Char) : containsSub (a ++ b) b = true := by
  simp only [containsSub, List.any_eq_true]
  exact ⟨b, (List.mem_tails b (a ++ b)).mpr (List.suffix_append a b), by simp⟩

/-- Claim C8: when the number of registered environment identifiers occurring
as substrings of the model path is zero, or greater than one, loading fails
with an error whose message contains the offending path; exactly one match
proceeds with the matched identifier. -/
theorem C8_env_id_resolution (minigrid_envs : List (List Char))
    (model_path : List Char) :
    ((find_env_ids minigrid_envs model_path).length = 0 →
        get_env_id minigrid_envs model_path = .error (msg_no_env ++ model_path) ∧
        containsSub (msg_no_env ++ model_path) model_path = true) ∧
    ((find_env_ids minigrid_envs model_path).length > 1 →
        get_env_id minigrid_envs model_path = .error (msg_many_env ++ model_path) ∧
        containsSub (msg_many_env ++ model_path) model_path = true) ∧
    (∀ e : List Char, find_env_ids minigrid_envs model_path = [e] →
        get_env_id minigrid_envs model_path = .ok e) := by
  refine ⟨fun h0 => ?_, fun h1 => ?_, fun e he => ?_⟩
  · exact ⟨by simp [get_env_id, h0], containsSub_append _ _⟩
  · have hne : (find_env_ids minigrid_envs model_path).length ≠ 0 := by omega
    exact ⟨by simp [get_env_id, hne, h1], containsSub_append _ _⟩
  · simp [get_env_id, he]

/-- Concrete instantiation of C8_env_id_resolution on a two-identifier
registry: a path matching neither fails with the path in the message, a path
matching both fails with the path in the message, a path matching exactly one
resolves to it. -/
theorem C8_env_id_resolution_witness :
    get_env_id ["MiniGrid-DoorKey-8x8-v0".data, "MiniGrid-Empty-5x5-v0".data]
        "models/other.pt".data
      = .error (msg_no_env ++ "models/other.pt".data) ∧
    get_env_id ["MiniGrid-DoorKey-8x8-v0".data, "MiniGrid-Empty-5x5-v0".data]
        "models/MiniGrid-DoorKey-8x8-v0-MiniGrid-Empty-5x5-v0.pt".data
      = .error (msg_many_env ++
          "models/MiniGrid-DoorKey-8x8-v0-MiniGrid-Empty-5x5-v0.pt".data) ∧
    get_env_id ["MiniGrid-DoorKey-8x8-v0".data, "MiniGrid-Empty-5x5-v0".data]
        "models/MiniGrid-DoorKey-8x8-v0/first_pass.pt".data
      = .ok "MiniGrid-DoorKey-8x8-v0".data := by
  have h1 := C8_env_id_resolution
      ["MiniGrid-DoorKey-8x8-v0".data, "MiniGrid-Empty-5x5-v0".data]
      "models/other.pt".data
  have h2 := C8_env_id_resolution
      ["MiniGrid-DoorKey-8x8-v0".data, "MiniGrid-Empty-5x5-v0".data]
      "models/MiniGrid-DoorKey-8x8-v0-MiniGrid-Empty-5x5-v0.pt".data
  have h3 := C8_env_id_resolution
      ["MiniGrid-DoorKey-8x8-v0".data, "MiniGrid-Empty-5x5-v0".data]
      "models/MiniGrid-DoorKey-8x8-v0/first_pass.pt".data
  exact ⟨(h1.1 (by decide)).1, (h2.2.1 (by decide)).1, h3.2.2 _ (by decide)⟩

/-- The i.endswith(".mp4") filter applied to directory listings
(train.py lines 234, 237, 312-313). -/
def isMp4 (f : List Char) : Bool :=
  ".mp4".data.isSuffixOf f

/-- The per-episode video bookkeeping of evaluate_dt_agent (train.py lines
312-325): current_videos lists the .mp4 files now present; when tracking is
on and the count grew, new_videos is computed and the assert demands exactly
one new file, its message naming new_videos (carried here in the error
value); in every case the videos list is replaced by current_videos. -/
def processVideos (track : Bool) (videos dirAfter : List (List Char)) :
    Except (List (List Char)) (List (List Char)) :=
  let current_videos := dirAfter.filter isMp4
  if track && decide (videos.length < current_videos.length) then
    let new_videos := current_videos.filter fun i => !(videos.contains i)
    if new_videos.length = 1 then .ok current_videos else .error new_videos
  else .ok current_videos

/-- Input driving one evaluation episode: the env.step results the
environment yields and the video directory listing observed once the episode
ends. -/
structure EpisodeInput where
  steps : List StepResult
  dirAfter : List (List Char)

/-- The episode loop of evaluate_dt_agent over all requested episodes,
threading the videos list through the per-episode video check: none when an
episode never ends within its supplied stream, some (.error new_videos) when
the video assert fires, some (.ok outcomes) otherwise. -/
def runEpisodes (track : Bool) (R : ℚ) :
    List (List Char) → List EpisodeInput →
      Option (Except (List (List Char)) (List EpisodeOutcome))
  | _, [] => some (.ok [])
  | videos, e :: rest =>
      match runEpisode R e.steps with
      | none => none
      | some out =>
          match processVideos track videos e.dirAfter with
          | .error new_videos => some (.error new_videos)
          | .ok videos2 =>
              match runEpisodes track R videos2 rest with
              | none => none
              | some (.error v) => some (.error v)
              | some (.ok outs) => some (.ok (out :: outs))

/-- evaluate_dt_agent end to end (train.py lines 202-353): the video
directory is emptied before the first episode (lines 234-237, so the videos
list starts empty), the episodes run in order, and the statistics are built
from the finished episodes. -/
def evaluate_dt_agent (track : Bool) (initial_rtg : ℚ)
    (episodes : List EpisodeInput) :
    Option (Except (List (List Char)) EvalStatistics) :=
  (runEpisodes track initial_rtg [] episodes).map fun r =>
    r.map (evaluateStats initial_rtg)

/-- Each episode adds at most one new .mp4 file whenever the count grows. -/
def videoInvariantOk : List (List Char) → List EpisodeInput → Bool
  | _, [] => true
  | videos, e :: rest =>
      let current_videos := e.dirAfter.filter isMp4
      (!decide (videos.length < current_videos.length)
        || decide ((current_videos.filter fun i => !(videos.contains i)).length = 1))
      && videoInvariantOk current_videos rest

/-- Claim C6 fails on the code at this input: with a single finished episode
after which two new .mp4 files are present, the evaluation run with tracking
enabled aborts in the video assert while the run with tracking disabled
returns the statistics, so disabling tracking does alter control flow. -/
theorem C6_counterexample :
    evaluate_dt_agent true 1 [⟨[⟨1, true, false⟩], ["a.mp4".data, "b.mp4".data]⟩]
        = some (.error ["a.mp4".data, "b.mp4".data]) ∧
    evaluate_dt_agent false 1 [⟨[⟨1, true, false⟩], ["a.mp4".data, "b.mp4".data]⟩]
        = some (.ok (evaluateStats 1 [⟨[1], 0, 1, 1, true, false⟩])) ∧
    evaluate_dt_agent true 1 [⟨[⟨1, true, false⟩], ["a.mp4".data, "b.mp4".data]⟩]
      ≠ evaluate_dt_agent false 1 [⟨[⟨1, true, false⟩], ["a.mp4".data, "b.mp4".data]⟩] := by
  have he : evaluate_dt_agent true 1
      [⟨[⟨1, true, false⟩], ["a.mp4".data, "b.mp4".data]⟩]
      = some (.error ["a.mp4".data, "b.mp4".data]) := by rfl
  have ho : evaluate_dt_agent false 1
      [⟨[⟨1, true, false⟩], ["a.mp4".data, "b.mp4".data]⟩]
      = some (.ok (evaluateStats 1 [⟨[1], 0, 1, 1, true, false⟩])) := by rfl
  refine ⟨he, ho, ?_⟩
  rw [he, ho]
  simp

/-- Claim C6 amended: as long as no episode check ever sees more than one new
.mp4 file (so the tracking-only video assert cannot fire), running the
rollout evaluation with tracking enabled and with tracking disabled yields
identical returned results and identical control flow; the exception the
counterexample forces is the video assert, which can only raise when
tracking is enabled. -/
theorem C6_track_invisible (R : ℚ) (episodes : List EpisodeInput)
    (h : videoInvariantOk [] episodes = true) :
    evaluate_dt_agent true R episodes = evaluate_dt_agent false R episodes := by
  suffices hgen : ∀ (eps : List EpisodeInput) (videos : List (List Char)),
      videoInvariantOk videos eps = true →
      runEpisodes true R videos eps = runEpisodes false R videos eps by
    unfold evaluate_dt_agent
    rw [hgen episodes [] h]
  intro eps
  induction eps with
  | nil => intro videos _; rfl
  | cons e rest ih =>
      intro videos hv
      simp only [videoInvariantOk, Bool.and_eq_true, Bool.or_eq_true,
        Bool.not_eq_eq_eq_not, Bool.not_true, decide_eq_false_iff_not,
        decide_eq_true_eq] at hv
      obtain ⟨hhead, htail⟩ := hv
      have hcurF : processVideos false videos e.dirAfter
          = .ok (e.dirAfter.filter isMp4) := by
        simp [processVideos]
      have hcurT : processVideos true videos e.dirAfter
          = .ok (e.dirAfter.filter isMp4) := by
        by_cases hlt : videos.length < (e.dirAfter.filter isMp4).length
        · have h1 : ((e.dirAfter.filter isMp4).filter
              fun i => !(videos.contains i)).length = 1 := by
            rcases hhead with hge | h1
            · exact absurd hlt hge
            · exact h1
          simp only [processVideos, Bool.true_and, decide_eq_true_eq]
          rw [if_pos hlt, if_pos h1]
        · simp only [processVideos, Bool.true_and, decide_eq_true_eq]
          rw [if_neg hlt]
      unfold runEpisodes
      cases hre : runEpisode R e.steps with
      | none => rfl
      | some out =>
          rw [hcurT, hcurF]
          dsimp only
          rw [ih (e.dirAfter.filter isMp4) htail]

/-- Concrete instantiation of C6_track_invisible: one episode producing one
new video, identical results with and without tracking. -/
theorem C6_track_invisible_witness :
    videoInvariantOk [] [⟨[⟨1, true, false⟩], ["a.mp4".data]⟩] = true ∧
    evaluate_dt_agent true 1 [⟨[⟨1, true, false⟩], ["a.mp4".data]⟩]
      = evaluate_dt_agent false 1 [⟨[⟨1, true, false⟩], ["a.mp4".data]⟩] := by
  exact ⟨by decide, C6_track_invisible 1 _ (by decide)⟩

/-- Claim C9 fails on the code at this input: two new .mp4 files appear after
an episode, yet the evaluation run with tracking disabled performs no check
at all and completes without any assertion. -/
theorem C9_counterexample :
    ((["a.mp4".data, "b.mp4".data].filter isMp4).filter
        fun i => !(([] : List (List Char)).contains i)).length = 2 ∧
    processVideos false [] ["a.mp4".data, "b.mp4".data]
        = .ok ["a.mp4".data, "b.mp4".data] ∧
    evaluate_dt_agent false 1
        [⟨[⟨0, false, false⟩, ⟨1, true, false⟩], ["a.mp4".data, "b.mp4".data]⟩]
      = some (.ok (evaluateStats 1 [⟨[1, 1], 1, 2, 1, true, false⟩])) := by
  refine ⟨by decide, by rfl, by rfl⟩

/-- Claim C9 amended: when tracking is enabled, an episode check that sees
the .mp4 count grow accepts exactly one new file and fails the assertion
otherwise, the error naming the new files; in particular more than one new
file between two consecutive checks is a fatal assertion, while with
tracking disabled the check is skipped entirely. -/
theorem C9_video_assert (videos dirAfter : List (List Char)) :
    (videos.length < (dirAfter.filter isMp4).length →
      ((dirAfter.filter isMp4).filter fun i => !(videos.contains i)).length ≠ 1 →
        processVideos true videos dirAfter
          = .error ((dirAfter.filter isMp4).filter fun i => !(videos.contains i))) ∧
    (videos.length < (dirAfter.filter isMp4).length →
      ((dirAfter.filter isMp4).filter fun i => !(videos.contains i)).length = 1 →
        processVideos true videos dirAfter = .ok (dirAfter.filter isMp4)) ∧
    (¬ videos.length < (dirAfter.filter isMp4).length →
        processVideos true videos dirAfter = .ok (dirAfter.filter isMp4)) := by
  refine ⟨fun hlt hne => ?_, fun hlt h1 => ?_, fun hge => ?_⟩
  · simp only [processVideos, Bool.true_and, decide_eq_true_eq]
    rw [if_pos hlt, if_neg hne]
  · simp only [processVideos, Bool.true_and, decide_eq_true_eq]
    rw [if_pos hlt, if_pos h1]
  · simp only [processVideos, Bool.true_and, decide_eq_true_eq]
    rw [if_neg hge]

/-- Concrete instantiation of C9_video_assert: two new files next to an empty
videos list fail the assert with both files named. -/
theorem C9_video_assert_witness :
    ([] : List (List Char)).length
        < (["a.mp4".data, "b.mp4".data].filter isMp4).length ∧
    processVideos true [] ["a.mp4".data, "b.mp4".data]
      = .error ["a.mp4".data, "b.mp4".data] := by
  have h := (C9_video_assert [] ["a.mp4".data, "b.mp4".data]).1
      (by decide) (by decide)
  exact ⟨by decide, by simpa using h⟩

end DTI
